import Mathlib

/-!
Verification of the ACL module (`src/modules/base/acl/module.py`) of
pumpkin.py: group hierarchy listing, group store commands, rule
export/import, and the authorization contract.

Conventions of the embedding:
* `ACL_group` / `ACL_rule` rows are records; the record store
  (`database.acl`, not part of the sources here) is modelled from the
  spec's contract as lists of rows filtered by guild.
* Python group objects are identified by their index in the fetched
  list (`Fin gs.length`), matching Python object identity in
  `group not in visited`.
* JSON-decoded values are `JsonVal`; Python's `getattr` on such values
  is `pyGetattr` (see its doc comment).
-/

/-- Persisted ACL group row: Group{id, guildId, name, parent, roleId}. -/
structure ACLGroup where
  id : Int
  guild_id : Int
  name : String
  parent : Option String
  role_id : Int
deriving DecidableEq, Repr

/-- Persisted ACL rule row:
Rule{id, guildId, command, default, usersAllow, usersDeny, groupsAllow, groupsDeny}. -/
structure ACLRule where
  id : Int
  guild_id : Int
  command : String
  default : Bool
  users_allow : List Int
  users_deny : List Int
  groups_allow : List String
  groups_deny : List String
deriving DecidableEq, Repr

/-! ### Group tree listing (`acl_group_list` and its inner `bfs`, module.py:44-78) -/

/-- Children relationship computed by `acl_group_list` (module.py:44-56):
group `j` is a child of group `i` iff `j.parent == i.name`; the children
keep the order in which the groups were supplied (appends in supply order). -/
def groupChildren (gs : List ACLGroup) (i : Fin gs.length) : List (Fin gs.length) :=
  (List.finRange gs.length).filter (fun j => (gs.get j).parent = some ((gs.get i).name))

/-- Python `for child in group.children: child.level = group.level + 1`
(module.py:66-67): each assignment reads the current level of `i`. -/
def setChildLevels {n : Nat} (levels : Fin n → Nat) (i : Fin n) (cs : List (Fin n)) :
    Fin n → Nat :=
  cs.foldl (fun lv child => fun j => if j = child then lv i + 1 else lv j) levels

/-- The `while queue:` loop of `bfs` (module.py:59-69), one fuel unit per
iteration: pop the head; if unvisited, append it to `visited`, set its
children's levels, and prepend its children to the queue.  `none` means
the fuel ran out before the loop finished. -/
def bfsFuel (gs : List ACLGroup) :
    Nat → (Fin gs.length → Nat) → List (Fin gs.length) → List (Fin gs.length) →
    Option (List (Fin gs.length) × (Fin gs.length → Nat))
  | 0, _, _, _ => none
  | _ + 1, levels, visited, [] => some (visited, levels)
  | fuel + 1, levels, visited, g :: rest =>
    if g ∈ visited then
      bfsFuel gs fuel levels visited rest
    else
      bfsFuel gs fuel (setChildLevels levels g (groupChildren gs g))
        (visited ++ [g]) (groupChildren gs g ++ rest)

/-- `acl_group_list`'s traversal: every level starts at 0 (module.py:57), the
queue is seeded with all supplied groups (module.py:73 calls `bfs(groups)`).
The fuel `n*n + n + 1` always suffices (proved below), so the `getD`
default is never reached. -/
def bfs (gs : List ACLGroup) : List (Fin gs.length) × (Fin gs.length → Nat) :=
  (bfsFuel gs (gs.length * gs.length + gs.length + 1) (fun _ => 0) []
    (List.finRange gs.length)).getD ([], fun _ => 0)

/-! ### Group store commands (`acl_group_add`, `acl_group_update`, module.py:92-160) -/

/-- Character class of the pattern `[a-zA-Z-]` (module.py:103). -/
def isNameChar (c : Char) : Bool :=
  (Char.ofNat 97 ≤ c && c ≤ Char.ofNat 122) ||
  (Char.ofNat 65 ≤ c && c ≤ Char.ofNat 90) || c = Char.ofNat 45

/-- Python `re.fullmatch(r"[a-zA-Z-]+", s) is not None`: non-empty and
every character in the class. -/
def fullmatchName (s : String) : Bool :=
  !s.isEmpty && s.data.all isNameChar

/-- Modelled from the spec: GroupStore lookup keyed by guild and name
(`ACL_group.get(guild_id, name)`). -/
def groupGet (gid : Int) (store : List ACLGroup) (name : String) : Option ACLGroup :=
  store.find? (fun g => g.guild_id = gid && g.name = name)

/-- Modelled from the spec: `ACL_group.get_all(guild_id)` returns the
tenant's groups. -/
def groupGetAll (gid : Int) (store : List ACLGroup) : List ACLGroup :=
  store.filter (fun g => g.guild_id = gid)

/-- Modelled from the spec: the store assigns a fresh integer id on add. -/
def freshGroupId (store : List ACLGroup) : Int :=
  store.foldl (fun m g => max m g.id) 0 + 1

/-- Modelled from the spec: `group.save()` persists the mutated row,
keyed by its store-assigned id. -/
def groupSave (store : List ACLGroup) (g : ACLGroup) : List ACLGroup :=
  store.map (fun h => if h.id = g.id then g else h)

inductive GroupAddResult where
  | badName
  | ok (store : List ACLGroup)
deriving DecidableEq, Repr

/-- `acl_group_add` (module.py:92-111): reject a name that does not fully
match `[a-zA-Z-]+`; an empty `parent` becomes null; then add the row. -/
def aclGroupAdd (gid : Int) (store : List ACLGroup) (name parent : String)
    (role_id : Int) : GroupAddResult :=
  if fullmatchName name = false then .badName
  else
    let parentOpt : Option String := if parent.length = 0 then none else some parent
    .ok (store ++ [⟨freshGroupId store, gid, name, parentOpt, role_id⟩])

inductive GroupUpdateResult where
  | notFound
  | badName
  | badParam
  | ok (store : List ACLGroup)
deriving DecidableEq, Repr

/-- `acl_group_update` (module.py:120-153).  Note two behaviours taken
verbatim from the source: for `param == "name"` the pattern check is run
on `name` (the lookup argument), not on `value` (module.py:141), and for
`param == "parent"` the raw `value` is assigned with no empty-string to
null conversion (module.py:146). -/
def aclGroupUpdate (gid : Int) (store : List ACLGroup) (name param value : String) :
    GroupUpdateResult :=
  match groupGet gid store name with
  | none => .notFound
  | some group =>
    if param = "name" then
      if fullmatchName name = false then .badName
      else .ok (groupSave store { group with name := value })
    else if param = "parent" then
      .ok (groupSave store { group with parent := some value })
    else if param = "role_id" then
      .ok (groupSave store { group with role_id := (value.toInt?).getD 0 })
    else .badParam

/-! ### JSON documents and Python attribute probing (`acl_rule_import`, `import_rules`) -/

/-- JSON value as decoded by `json.load` (module.py:247). -/
inductive JsonVal where
  | bool (b : Bool)
  | int (n : Int)
  | str (s : String)
  | arr (xs : List JsonVal)
  | obj (fields : List (String × JsonVal))

/-- Python `getattr(attributes, kw, dflt)` where `attributes` is a
JSON-decoded value (dict, list, str, int or bool) and `kw` is one of
"default", "users_allow", "users_deny", "groups_allow", "groups_deny"
(module.py:328-347): none of those types has an attribute of any of
those names (dict entries are items, not attributes), so the probe
always falls back to `dflt`. -/
def pyGetattr (_attributes : JsonVal) (_kw : String) (dflt : JsonVal) : JsonVal :=
  dflt

/-- Python `v in (True, False)` (module.py:328): equality with a bool;
Python `==` also counts the ints 1 and 0 as True and False. -/
def jsonIsTrueOrFalse : JsonVal → Bool
  | .bool _ => true
  | .int n => n = 0 || n = 1
  | _ => false

/-- Python `type(v) == list` (module.py:334). -/
def jsonIsArr : JsonVal → Bool
  | .arr _ => true
  | _ => false

/-- Elements produced by iterating a decoded JSON list (`for x in v`);
only ever applied to the `pyGetattr` fallback `[]` here. -/
def jsonElems : JsonVal → List JsonVal
  | .arr xs => xs
  | _ => []

/-- Python `group in acl_groups` (module.py:341) where `acl_groups` is a
list of strings: string equality, false for non-string JSON values. -/
def jsonInNames (v : JsonVal) (names : List String) : Bool :=
  match v with
  | .str s => names.contains s
  | _ => false

/-- Python `type(v) == int` (module.py:348). -/
def jsonIsInt : JsonVal → Bool
  | .int _ => true
  | _ => false

/-- Python truthiness of the value handed to `ACL_rule.add` as `default`
(module.py:360); it is always the `pyGetattr` fallback `False` here. -/
def jsonToBool : JsonVal → Bool
  | .bool b => b
  | _ => false

/-! ### Rule store (modelled from the spec's RuleStore contract) -/

/-- Modelled from the spec: `ACL_rule.get(guild_id, command)`. -/
def ruleGet (gid : Int) (store : List ACLRule) (command : String) : Option ACLRule :=
  store.find? (fun r => r.guild_id = gid && r.command = command)

/-- Modelled from the spec: `ACL_rule.get_all(guild_id)`. -/
def ruleGetAll (gid : Int) (store : List ACLRule) : List ACLRule :=
  store.filter (fun r => r.guild_id = gid)

/-- Modelled from the spec: the store assigns a fresh integer id on add. -/
def freshRuleId (store : List ACLRule) : Int :=
  store.foldl (fun m r => max m r.id) 0 + 1

/-- Modelled from the spec: `ACL_rule.add(guild_id, command, default)`
creates a default-only rule with empty allow/deny lists. -/
def ruleAdd (gid : Int) (store : List ACLRule) (command : String) (dflt : Bool) :
    List ACLRule :=
  store ++ [⟨freshRuleId store, gid, command, dflt, [], [], [], []⟩]

/-! ### Export (`acl_rule_export`, module.py:179-204) -/

/-- A rule's `to_dict()` with `id`, `command` and `guild_id` deleted
(module.py:189-192); the record fields follow the spec's Rule shape. -/
structure RuleData where
  default : Bool
  users_allow : List Int
  users_deny : List Int
  groups_allow : List String
  groups_deny : List String
deriving DecidableEq, Repr

/-- Build the stripped dict for one rule (module.py:189-192). -/
def ruleStrippedDict (r : ACLRule) : RuleData :=
  ⟨r.default, r.users_allow, r.users_deny, r.groups_allow, r.groups_deny⟩

/-- Python dict assignment `d[k] = v`: overwrite the key if present,
else append the pair. -/
def dictSet (d : List (String × RuleData)) (k : String) (v : RuleData) :
    List (String × RuleData) :=
  if d.any (fun p => p.1 = k) then
    d.map (fun p => if p.1 = k then (k, v) else p)
  else d ++ [(k, v)]

/-- The export dict of `acl_rule_export` (module.py:185-193).  The source
line 193 is `export["command"] = rule_dict`: every rule is written to the
literal key "command". -/
def aclRuleExport (gid : Int) (ruleStore : List ACLRule) : List (String × RuleData) :=
  (ruleGetAll gid ruleStore).foldl
    (fun ex rule => dictSet ex "command" (ruleStrippedDict rule)) []

/-- What the exported JSON document decodes back to when fed to import:
the stripped fields as a JSON object (key order is irrelevant to the
importer). -/
def ruleDataToJson (d : RuleData) : JsonVal :=
  .obj [("default", .bool d.default),
        ("users_allow", .arr (d.users_allow.map .int)),
        ("users_deny", .arr (d.users_deny.map .int)),
        ("groups_allow", .arr (d.groups_allow.map .str)),
        ("groups_deny", .arr (d.groups_deny.map .str))]

/-! ### Import (`import_rules`, module.py:305-363) -/

/-- Accumulators of `import_rules`: `result_new`, `result_upd`, the five
reason-keyed rejection sets of `result_rej`, and the rule store the
commits go to. -/
structure ImportState where
  result_new : List String
  result_upd : List String
  rej_not_bool : List String
  rej_not_list : List String
  rej_not_group : List String
  rej_not_user_id : List String
  rej_duplicate : List String
  rules : List ACLRule
deriving DecidableEq, Repr

/-- Python `set.add` on a rejection set (membership is what the claims
read off a set; insertion order stands in for the set). -/
def setAdd (s : List String) (x : String) : List String :=
  if x ∈ s then s else s ++ [x]

/-- Check of module.py:328: `getattr(attributes, "default", False) not in (True, False)`. -/
def checkNotBool (attributes : JsonVal) : Bool :=
  !(jsonIsTrueOrFalse (pyGetattr attributes "default" (.bool false)))

/-- Check of module.py:333-336: some keyword's probed value is not a list. -/
def checkNotList (attributes : JsonVal) : Bool :=
  ["users_allow", "users_deny", "groups_allow", "groups_deny"].any
    (fun kw => !(jsonIsArr (pyGetattr attributes kw (.arr []))))

/-- Check of module.py:339-343: some probed group name is not a known group. -/
def checkNotGroup (acl_groups : List String) (attributes : JsonVal) : Bool :=
  ["groups_allow", "groups_deny"].any
    (fun kw => (jsonElems (pyGetattr attributes kw (.arr []))).any
      (fun g => !(jsonInNames g acl_groups)))

/-- Check of module.py:346-350: some probed user id is not an int. -/
def checkNotUserId (attributes : JsonVal) : Bool :=
  ["users_allow", "users_deny"].any
    (fun kw => (jsonElems (pyGetattr attributes kw (.arr []))).any
      (fun u => !(jsonIsInt u)))

/-- Body of the `for command, attributes in data.items()` loop of
`import_rules` (module.py:324-363): run the four checks, each adding the
command to its rejection set when it trips; skip on any failure; then
either reject as duplicate (existing rule, mode not "replace") or call
`ACL_rule.add`.  The source's group/user attach loop is `pass`
(module.py:362-363) and `result_new`/`result_upd` are never appended to,
so the commit branch only adds the bare rule. -/
def importStep (gid : Int) (acl_groups : List String) (mode : String)
    (st : ImportState) (entry : String × JsonVal) : ImportState :=
  let command := entry.1
  let attributes := entry.2
  let badBool := checkNotBool attributes
  let st1 := if badBool then { st with rej_not_bool := setAdd st.rej_not_bool command }
             else st
  let badList := checkNotList attributes
  let st2 := if badList then { st1 with rej_not_list := setAdd st1.rej_not_list command }
             else st1
  let badGroup := checkNotGroup acl_groups attributes
  let st3 := if badGroup then
               { st2 with rej_not_group := setAdd st2.rej_not_group command }
             else st2
  let badUser := checkNotUserId attributes
  let st4 := if badUser then
               { st3 with rej_not_user_id := setAdd st3.rej_not_user_id command }
             else st3
  if badBool || badList || badGroup || badUser then st4
  else if (ruleGet gid st4.rules command).isSome && mode ≠ "replace" then
    { st4 with rej_duplicate := setAdd st4.rej_duplicate command }
  else
    let dflt := jsonToBool (pyGetattr attributes "default" (.bool false))
    { st4 with rules := ruleAdd gid st4.rules command dflt }

/-- `import_rules` (module.py:305-363): collect the tenant's group names
(module.py:322), then fold the loop body over the document's entries.
The returned state holds the accumulators and the mutated store (the
source function itself ends without a return statement). -/
def importRules (gid : Int) (groupStore : List ACLGroup) (ruleStore : List ACLRule)
    (data : List (String × JsonVal)) (mode : String) : ImportState :=
  let acl_groups := (groupGetAll gid groupStore).map (fun g => g.name)
  data.foldl (importStep gid acl_groups mode)
    ⟨[], [], [], [], [], [], [], ruleStore⟩

/-! ### Authorization engine -/

/-- Modelled from the spec: the AuthorizationEngine
(`authorize(rule, userId, userGroups)`) is not among the source files;
its decision precedence follows the spec's section 4.2: user-level deny,
user-level allow, group-level deny, group-level allow, then the rule's
default. -/
def authorize (rule : ACLRule) (userId : Int) (userGroups : List String) : Bool :=
  if userId ∈ rule.users_deny then false
  else if userId ∈ rule.users_allow then true
  else if ∃ g ∈ userGroups, g ∈ rule.groups_deny then false
  else if ∃ g ∈ userGroups, g ∈ rule.groups_allow then true
  else rule.default

/-! ### Helper lemmas -/

/-- Loop measure for `bfsFuel`: unvisited groups weighted by the maximal
number of children one visit can prepend, plus the queue length. -/
def bfsMeasure (n : Nat) (visited queue : List (Fin n)) : Nat :=
  (n - visited.toFinset.card) * n + queue.length

lemma groupChildren_length_le (gs : List ACLGroup) (i : Fin gs.length) :
    (groupChildren gs i).length ≤ gs.length := by
  calc (groupChildren gs i).length ≤ (List.finRange gs.length).length :=
        List.length_filter_le _ _
    _ = gs.length := List.length_finRange _

lemma bfsFuel_isSome (gs : List ACLGroup) :
    ∀ (fuel : Nat) (levels : Fin gs.length → Nat) (visited queue : List (Fin gs.length)),
      bfsMeasure gs.length visited queue < fuel →
      (bfsFuel gs fuel levels visited queue).isSome = true := by
  intro fuel
  induction fuel with
  | zero => exact fun _ _ _ h => absurd h (Nat.not_lt_zero _)
  | succ fuel ih =>
    intro levels visited queue hlt
    cases queue with
    | nil => simp [bfsFuel]
    | cons g rest =>
      by_cases hg : g ∈ visited
      · rw [show bfsFuel gs (fuel + 1) levels visited (g :: rest)
              = bfsFuel gs fuel levels visited rest by simp [bfsFuel, hg]]
        apply ih
        unfold bfsMeasure at hlt ⊢
        simp only [List.length_cons] at hlt
        omega
      · rw [show bfsFuel gs (fuel + 1) levels visited (g :: rest)
              = bfsFuel gs fuel (setChildLevels levels g (groupChildren gs g))
                  (visited ++ [g]) (groupChildren gs g ++ rest) by simp [bfsFuel, hg]]
        apply ih
        have hgf : g ∉ visited.toFinset := by simpa using hg
        have hset : (visited ++ [g]).toFinset = insert g visited.toFinset := by
          ext x
          simp [or_comm]
        have hcard : (visited ++ [g]).toFinset.card = visited.toFinset.card + 1 := by
          rw [hset, Finset.card_insert_of_not_mem hgf]
        have hle : visited.toFinset.card + 1 ≤ gs.length := by
          have h1 := Finset.card_le_univ (visited ++ [g]).toFinset
          rw [hcard, Fintype.card_fin] at h1
          exact h1
        have hch := groupChildren_length_le gs g
        unfold bfsMeasure at hlt ⊢
        rw [hcard]
        simp only [List.length_append, List.length_cons] at hlt ⊢
        have hexp : gs.length - visited.toFinset.card
            = (gs.length - (visited.toFinset.card + 1)) + 1 := by omega
        rw [hexp, Nat.succ_mul] at hlt
        obtain ⟨A, hA⟩ : ∃ A, (gs.length - (visited.toFinset.card + 1)) * gs.length = A :=
          ⟨_, rfl⟩
        rw [hA] at hlt ⊢
        omega

lemma find?_append_of_found {α : Type} (p : α → Bool) (l₁ l₂ : List α) (r : α)
    (h : l₁.find? p = some r) : (l₁ ++ l₂).find? p = some r := by
  induction l₁ with
  | nil => simp [List.find?] at h
  | cons a as ih =>
    rw [List.cons_append]
    cases hpa : p a with
    | true =>
      rw [List.find?_cons_of_pos _ hpa] at h ⊢
      exact h
    | false =>
      rw [List.find?_cons_of_neg _ (by simp [hpa])] at h ⊢
      exact ih h

lemma mem_setAdd_self (s : List String) (x : String) : x ∈ setAdd s x := by
  unfold setAdd
  split
  · assumption
  · exact List.mem_append_right _ (List.mem_singleton_self x)

lemma mem_setAdd_of_mem (s : List String) (x y : String) (h : x ∈ s) :
    x ∈ setAdd s y := by
  unfold setAdd
  split
  · exact h
  · exact List.mem_append_left _ h

/-- With the probes always missing (`pyGetattr`), every check of
`import_rules` is vacuously false, so each loop iteration reduces to the
duplicate test followed by the bare `ACL_rule.add` with default `False`. -/
lemma importStep_eq (gid : Int) (acl_groups : List String) (mode : String)
    (st : ImportState) (entry : String × JsonVal) :
    importStep gid acl_groups mode st entry =
      if (ruleGet gid st.rules entry.1).isSome && mode ≠ "replace" then
        { st with rej_duplicate := setAdd st.rej_duplicate entry.1 }
      else
        { st with rules := ruleAdd gid st.rules entry.1 false } := rfl

lemma ruleGet_ruleAdd_of_found (gid gid2 : Int) (store : List ACLRule)
    (cmd cmd2 : String) (dflt : Bool) (r : ACLRule)
    (h : ruleGet gid store cmd = some r) :
    ruleGet gid (ruleAdd gid2 store cmd2 dflt) cmd = some r := by
  unfold ruleGet ruleAdd at *
  exact find?_append_of_found _ _ _ _ h

lemma importStep_preserves_ruleGet (gid : Int) (acl_groups : List String)
    (mode : String) (st : ImportState) (entry : String × JsonVal)
    (cmd : String) (r : ACLRule) (h : ruleGet gid st.rules cmd = some r) :
    ruleGet gid (importStep gid acl_groups mode st entry).rules cmd = some r := by
  rw [importStep_eq]
  split
  · exact h
  · exact ruleGet_ruleAdd_of_found _ _ _ _ _ _ _ h

lemma importStep_preserves_rej_duplicate (gid : Int) (acl_groups : List String)
    (mode : String) (st : ImportState) (entry : String × JsonVal)
    (cmd : String) (h : cmd ∈ st.rej_duplicate) :
    cmd ∈ (importStep gid acl_groups mode st entry).rej_duplicate := by
  rw [importStep_eq]
  split
  · exact mem_setAdd_of_mem _ _ _ h
  · exact h

lemma importStep_rejects_duplicate (gid : Int) (acl_groups : List String)
    (mode : String) (st : ImportState) (cmd : String) (attrs : JsonVal)
    (r : ACLRule) (hmode : mode ≠ "replace")
    (h : ruleGet gid st.rules cmd = some r) :
    cmd ∈ (importStep gid acl_groups mode st (cmd, attrs)).rej_duplicate := by
  rw [importStep_eq]
  rw [if_pos (by simp [h, hmode])]
  exact mem_setAdd_self _ _

lemma importFold_duplicate (gid : Int) (acl_groups : List String) (mode : String)
    (cmd : String) (attrs : JsonVal) (r : ACLRule) (hmode : mode ≠ "replace") :
    ∀ (data : List (String × JsonVal)) (st : ImportState),
      ruleGet gid st.rules cmd = some r →
      ((cmd, attrs) ∈ data ∨ cmd ∈ st.rej_duplicate) →
      cmd ∈ (data.foldl (importStep gid acl_groups mode) st).rej_duplicate ∧
        ruleGet gid (data.foldl (importStep gid acl_groups mode) st).rules cmd = some r := by
  intro data
  induction data with
  | nil =>
    intro st hget hmem
    rcases hmem with hmem | hmem
    · simp at hmem
    · exact ⟨hmem, hget⟩
  | cons e es ih =>
    intro st hget hmem
    rw [List.foldl_cons]
    apply ih
    · exact importStep_preserves_ruleGet _ _ _ _ _ _ _ hget
    · rcases hmem with hmem | hmem
      · rcases List.mem_cons.mp hmem with hmem | hmem
        · right
          rw [← hmem] at *
          exact importStep_rejects_duplicate _ _ _ _ _ attrs _ hmode hget
        · exact Or.inl hmem
      · exact Or.inr (importStep_preserves_rej_duplicate _ _ _ _ _ _ hmem)

/-! ### Concrete inputs used by the claim theorems -/

/-- Three groups supplied child-first: "c" under "p" under the root "q". -/
def gs3 : List ACLGroup :=
  [⟨1, 1, "c", some "p", 0⟩, ⟨2, 1, "p", some "q", 0⟩, ⟨3, 1, "q", none, 0⟩]

/-- Import document `{"ban": {"default": true, "groups_allow": ["ghost"]}}`. -/
def banDoc : List (String × JsonVal) :=
  [("ban", JsonVal.obj [("default", JsonVal.bool true),
    ("groups_allow", JsonVal.arr [JsonVal.str "ghost"])])]

/-- Import document `{"kick": {"default": true, "groups_allow": ["mod"]}}`. -/
def kickDoc : List (String × JsonVal) :=
  [("kick", JsonVal.obj [("default", JsonVal.bool true),
    ("groups_allow", JsonVal.arr [JsonVal.str "mod"])])]

/-- A stored group "mod" of tenant 1. -/
def modGroup : ACLGroup := ⟨1, 1, "mod", none, 222⟩

/-- A stored group "mods" of tenant 1. -/
def modsGroup : ACLGroup := ⟨1, 1, "mods", none, 5⟩

/-- Two stored rules of tenant 1 with distinct commands. -/
def ruleAlpha : ACLRule := ⟨1, 1, "alpha", true, [], [], [], []⟩

def ruleBeta : ACLRule := ⟨2, 1, "beta", false, [7], [], ["mod"], []⟩

/-- A stored rule for command "kick" with a group-allow entry. -/
def kickRuleStored : ACLRule := ⟨3, 1, "kick", true, [], [], ["mod"], []⟩

/-- A bare stored rule for command "kick". -/
def rKick : ACLRule := ⟨7, 1, "kick", true, [], [], [], []⟩

/-- The spec's scenario rule: command "kick", default false, usersDeny
contains 42, groupsAllow contains "mod". -/
def kickScenarioRule : ACLRule := ⟨1, 1, "kick", false, [], [42], ["mod"], []⟩

/-- The export of `kickRuleStored` decoded back into an import document. -/
def roundTripDoc : List (String × JsonVal) :=
  (aclRuleExport 1 [kickRuleStored]).map (fun p => (p.1, ruleDataToJson p.2))

/-! ### Claim theorems -/

/-- C1: contrary to the claim, importing
`{"ban": {"default": true, "groups_allow": ["ghost"]}}` against a tenant
with no group "ghost" rejects nothing with reason not-group and commits
one rule (command "ban", default false): the attribute probes of
`import_rules` never see the document's lists, so the unknown group
reference is never checked. -/
theorem acl_import_unknown_group_not_rejected :
    (importRules 1 [] [] banDoc "add").rej_not_group = [] ∧
    (importRules 1 [] [] banDoc "add").rules = [⟨1, 1, "ban", false, [], [], [], []⟩] := by
  decide

/-- C2: contrary to the claim, exporting a tenant with two rules
(commands "alpha" and "beta") produces a document with a single entry
under the literal key "command" holding the last rule's stripped fields
(module.py:193 writes `export["command"] = rule_dict`), not one entry
per rule keyed by its command. -/
theorem acl_export_single_literal_key :
    aclRuleExport 1 [ruleAlpha, ruleBeta] = [("command", ruleStrippedDict ruleBeta)] := by
  decide

/-- C3: contrary to the claim, the traversal's level assignment depends
on the supply order: for groups supplied child-first ("c" under "p"
under root "q"), "c"'s parent "p" is in the list and ends at level 1,
yet "c" also ends at level 1, not level(parent) + 1 = 2 — "p" was
visited while its own level was still the stale 0. -/
theorem acl_bfs_child_level_not_incremented :
    (gs3.get ⟨0, by decide⟩).parent = some (gs3.get ⟨1, by decide⟩).name ∧
    (bfs gs3).2 ⟨1, by decide⟩ = 1 ∧
    (bfs gs3).2 ⟨0, by decide⟩ = 1 := by
  decide

/-- C4: contrary to the claim, a command that passes every check and is
not a duplicate is committed but not reported and its lists are not
attached: importing `{"kick": {"default": true, "groups_allow": ["mod"]}}`
with group "mod" present leaves the accepted (new) result empty and
stores the rule with default false and all four lists empty (the attach
loop of module.py:362-363 is a no-op and `result_new` is never appended
to). -/
theorem acl_import_commit_drops_lists :
    (importRules 1 [modGroup] [] kickDoc "add").result_new = [] ∧
    (importRules 1 [modGroup] [] kickDoc "add").rules
      = [⟨1, 1, "kick", false, [], [], [], []⟩] := by
  decide

/-- C5: contrary to the claim, export followed by import with mode
"replace" does not reproduce the rule set: a tenant holding the single
rule "kick" ends with two rules, the untouched "kick" and a new rule
named "command" (the export's literal key) with default false and empty
lists. -/
theorem acl_export_import_roundtrip_fails :
    (importRules 1 [modGroup] [kickRuleStored] roundTripDoc "replace").rules.map
      (fun r => r.command) = ["kick", "command"] := by
  decide

/-- C6: the authorization decision follows the claimed precedence:
membership in usersDeny forces deny; otherwise membership in usersAllow
forces allow; otherwise a non-empty intersection with groupsDeny denies;
otherwise a non-empty intersection with groupsAllow allows; otherwise
the rule's default is returned. -/
theorem authorize_precedence (rule : ACLRule) (userId : Int) (userGroups : List String) :
    (userId ∈ rule.users_deny → authorize rule userId userGroups = false) ∧
    (userId ∉ rule.users_deny → userId ∈ rule.users_allow →
      authorize rule userId userGroups = true) ∧
    (userId ∉ rule.users_deny → userId ∉ rule.users_allow →
      (∃ g ∈ userGroups, g ∈ rule.groups_deny) →
      authorize rule userId userGroups = false) ∧
    (userId ∉ rule.users_deny → userId ∉ rule.users_allow →
      (¬ ∃ g ∈ userGroups, g ∈ rule.groups_deny) →
      (∃ g ∈ userGroups, g ∈ rule.groups_allow) →
      authorize rule userId userGroups = true) ∧
    (userId ∉ rule.users_deny → userId ∉ rule.users_allow →
      (¬ ∃ g ∈ userGroups, g ∈ rule.groups_deny) →
      (¬ ∃ g ∈ userGroups, g ∈ rule.groups_allow) →
      authorize rule userId userGroups = rule.default) := by
  refine ⟨?_, ?_, ?_, ?_, ?_⟩ <;> intros <;> simp [authorize, *]

/-- Witness for C6 at the spec's scenario: rule "kick" with usersDeny
[42] and groupsAllow ["mod"], user 42 in group "mod": the user-level
deny wins over the group-level allow. -/
theorem authorize_precedence_witness : authorize kickScenarioRule 42 ["mod"] = false :=
  (authorize_precedence kickScenarioRule 42 ["mod"]).1 (by decide)

/-- C7: a command of the import document for which a rule already exists
while the mode is not "replace" is put in the duplicate rejection set,
and the stored rule is still found unchanged after the whole import. -/
theorem import_duplicate_rejected_unchanged (gid : Int)
    (groupStore : List ACLGroup) (ruleStore : List ACLRule)
    (data : List (String × JsonVal)) (mode : String) (cmd : String)
    (attrs : JsonVal) (r : ACLRule)
    (hmem : (cmd, attrs) ∈ data) (hmode : mode ≠ "replace")
    (hget : ruleGet gid ruleStore cmd = some r) :
    cmd ∈ (importRules gid groupStore ruleStore data mode).rej_duplicate ∧
      ruleGet gid (importRules gid groupStore ruleStore data mode).rules cmd = some r := by
  unfold importRules
  exact importFold_duplicate gid _ mode cmd attrs r hmode data _ hget (Or.inl hmem)

/-- Witness for C7: importing `{"kick": {}}` in mode "add" against a
store already holding a "kick" rule rejects it as duplicate and leaves
the stored rule in place. -/
theorem import_duplicate_rejected_unchanged_witness :
    "kick" ∈ (importRules 1 [] [rKick] [("kick", JsonVal.obj [])] "add").rej_duplicate ∧
      ruleGet 1 (importRules 1 [] [rKick] [("kick", JsonVal.obj [])] "add").rules "kick"
        = some rKick :=
  import_duplicate_rejected_unchanged 1 [] [rKick] [("kick", JsonVal.obj [])] "add"
    "kick" (JsonVal.obj []) rKick (List.mem_singleton_self _) (by decide) rfl

/-- C8: contrary to the claim, the group update operation with field
"name" accepts a value that does not match `[a-zA-Z-]+`: updating group
"mods" with the new name "x!" succeeds and stores "x!" (the source
validates the lookup argument instead of the new value,
module.py:141). -/
theorem acl_group_update_accepts_bad_name :
    aclGroupUpdate 1 [modsGroup] "mods" "name" "x!"
      = .ok [⟨1, 1, "x!", none, 5⟩] ∧ fullmatchName "x!" = false := by
  decide

/-- C9: the add operation converts an empty parent to null, but contrary
to the claim the update operation with field "parent" stores the empty
string itself: after updating "mods" with parent "" the stored parent is
`some ""`, not `none`. -/
theorem acl_group_parent_empty_string :
    aclGroupAdd 1 [] "mods" "" 5 = .ok [⟨1, 1, "mods", none, 5⟩] ∧
    aclGroupUpdate 1 [modsGroup] "mods" "parent" ""
      = .ok [⟨1, 1, "mods", some "", 5⟩] := by
  decide

/-- C10: the `bfs` while-loop terminates on every finite group list,
parent cycles and dangling parent references included: fuel
`n*n + n + 1` (one unit per loop iteration) always suffices for the
traversal seeded with all supplied groups, because a group is first-
visited at most once and children are prepended only on a first visit. -/
theorem bfs_loop_bounded (gs : List ACLGroup) :
    (bfsFuel gs (gs.length * gs.length + gs.length + 1) (fun _ => 0) []
      (List.finRange gs.length)).isSome = true := by
  apply bfsFuel_isSome
  unfold bfsMeasure
  simp [List.length_finRange]
